import Mathlib

/-!
Verification of the tenant-scoped operational data plane of the metaFirst
repository: a shallow embedding of supervisor/operational/database.py and
supervisor/services/operational_service.py, with theorems settling the
behavioural claims about engine caching, session scoping, the error
taxonomy, ingest-run updates, heartbeat upserts and schema provisioning.

Modelling conventions.  Engines and session factories are identified by
allocation numbers drawn from a counter, so value equality of an Engine is
reference identity of the Python object.  The DSN-keyed engine cache of
database.py is a RouterState; the body of get_operational_engine runs under
the module lock (a with-block), which the embedding reflects by the locked
flag being false on every exit path.  Time is an abstract tick passed to
each operation in place of datetime.now.  Exceptions become Except values;
each raise site of the source gets its own constructor of
OperationalDBError.
-/

namespace MetaFirst

/-! ## Connection router: database.py -/

/-- Pooling policy chosen by get_operational_engine from the DSN scheme:
StaticPool for sqlite DSNs, a small bounded pool otherwise. -/
inductive PoolKind where
  | staticPool
  | pooled
deriving DecidableEq, Repr

/-- Scheme classification of database.py lines 91-105: a DSN starting with
the string sqlite gets the StaticPool configuration, anything else the
small pool with pre-ping. -/
def classifyDsn (dsn : String) : PoolKind :=
  if dsn.startsWith "sqlite" then PoolKind.staticPool else PoolKind.pooled

/-- A constructed engine.  The engineId is the allocation number, so two
Engine values are equal exactly when they are the same Python object. -/
structure Engine where
  engineId : Nat
  dsn : String
  pool : PoolKind
deriving DecidableEq, Repr

/-- One cached entry: the (engine, sessionmaker) pair stored in
the module-level engine cache, created together on a cache miss. -/
structure CachedConn where
  engine : Engine
  sessionFactoryId : Nat
deriving DecidableEq, Repr

/-- A low-level exception escaping engine construction or the cache
lookup, before any re-classification by get_operational_session. -/
inductive RawEngineError where
  | createFailed (dsn : String)
  | keyError (dsn : String)
deriving DecidableEq, Repr

/-- State of the module-level cache of database.py: the dict from DSN to
(engine, sessionmaker), the allocation counter, the number of
create_engine invocations attempted so far, and whether the module lock
is held. -/
structure RouterState where
  cache : List (String × CachedConn)
  nextId : Nat
  attempts : Nat
  locked : Bool
deriving DecidableEq, Repr

/-- Dict lookup by exact DSN string. -/
def RouterState.lookup (s : RouterState) (dsn : String) : Option CachedConn :=
  (s.cache.find? (fun p => p.1 == dsn)).map Prod.snd

/-- Embedding of get_operational_engine (database.py lines 75-109).  The
whole body runs inside the with-block on the cache lock, so the returned
state always has the lock released.  The createOk parameter models
whether create_engine succeeds for a given DSN (it raises on a malformed
DSN); on failure the raw exception propagates and nothing is inserted. -/
def get_operational_engine (createOk : String → Bool) (dsn : String)
    (s : RouterState) : Except RawEngineError Engine × RouterState :=
  match s.lookup dsn with
  | some conn => (Except.ok conn.engine, { s with locked := false })
  | none =>
    if createOk dsn then
      let eng : Engine := { engineId := s.nextId, dsn := dsn, pool := classifyDsn dsn }
      let conn : CachedConn := { engine := eng, sessionFactoryId := s.nextId }
      (Except.ok eng,
        { cache := s.cache ++ [(dsn, conn)], nextId := s.nextId + 1,
          attempts := s.attempts + 1, locked := false })
    else
      (Except.error (RawEngineError.createFailed dsn),
        { s with attempts := s.attempts + 1, locked := false })

/-- Embedding of the private session-factory getter (database.py lines
112-120): fast path under the lock, else create the engine and re-read
the cache entry, a missing entry at that point being a KeyError. -/
def get_session_factory (createOk : String → Bool) (dsn : String)
    (s : RouterState) : Except RawEngineError Nat × RouterState :=
  match s.lookup dsn with
  | some conn => (Except.ok conn.sessionFactoryId, { s with locked := false })
  | none =>
    match get_operational_engine createOk dsn s with
    | (Except.ok _, s₁) =>
      match s₁.lookup dsn with
      | some conn => (Except.ok conn.sessionFactoryId, s₁)
      | none => (Except.error (RawEngineError.keyError dsn), s₁)
    | (Except.error e, s₁) => (Except.error e, s₁)

/-- A row of the central supervisors table, as read by
get_operational_session: id, name and the optional operational DSN. -/
structure Supervisor where
  id : Nat
  name : Option String
  supervisor_db_dsn : Option String
deriving DecidableEq, Repr

/-- Error taxonomy of the operational layer.  One constructor per raise
site: supervisorNotFound and ingestRunNotFound are the two plain
OperationalDBError raises, missingDSN is MissingDSNError, unreachableDSN
is UnreachableDSNError wrapping the original low-level exception. -/
inductive OperationalDBError where
  | supervisorNotFound (supervisorId : Nat)
  | missingDSN (supervisorId : Nat) (name : Option String)
  | unreachableDSN (supervisorId : Nat) (dsn : String) (original : RawEngineError)
  | ingestRunNotFound (runId : Nat)
deriving DecidableEq, Repr

/-- The supervisor-lookup and DSN-check part of get_operational_session
(database.py lines 143-153): find the supervisor row, fail if absent,
fail with MissingDSNError if the DSN column is unset or empty (the
Python falsiness test), otherwise produce the DSN. -/
def resolveDsn (central : List Supervisor) (supervisorId : Nat) :
    Except OperationalDBError String :=
  match central.find? (fun sup => sup.id == supervisorId) with
  | none => Except.error (OperationalDBError.supervisorNotFound supervisorId)
  | some sup =>
    match sup.supervisor_db_dsn with
    | none => Except.error (OperationalDBError.missingDSN supervisorId sup.name)
    | some dsn =>
      if dsn = "" then Except.error (OperationalDBError.missingDSN supervisorId sup.name)
      else Except.ok dsn

/-- Embedding of get_operational_session (database.py lines 123-159):
resolve the supervisor DSN, then obtain a session factory, wrapping any
exception from that step into UnreachableDSNError carrying the
supervisor id and DSN.  The result is the session-factory id the new
session is bound to. -/
def get_operational_session (createOk : String → Bool)
    (central : List Supervisor) (supervisorId : Nat) (s : RouterState) :
    Except OperationalDBError Nat × RouterState :=
  match resolveDsn central supervisorId with
  | Except.error e => (Except.error e, s)
  | Except.ok dsn =>
    match get_session_factory createOk dsn s with
    | (Except.ok sf, s₁) => (Except.ok sf, s₁)
    | (Except.error e, s₁) =>
      (Except.error (OperationalDBError.unreachableDSN supervisorId dsn e), s₁)

/-! ## Session scope: operational_session_scope (database.py lines 162-189) -/

/-- Observable lifecycle calls made on a session by the scope. -/
inductive SessionEvent where
  | commit
  | rollback
  | close
deriving DecidableEq, Repr

/-- Embedding of the body of operational_session_scope after the session
has been acquired: try yield then commit, on any exception roll back and
re-raise it, and close in the finally block on every path.  The body
outcome and the outcome of the commit call itself are parameters; the
result is the ordered trace of session calls together with the exception
the scope re-raises, if any. -/
def operational_session_scope {ε : Type} (body : Except ε Unit)
    (commitResult : Except ε Unit) : List SessionEvent × Option ε :=
  let inner : List SessionEvent × Option ε :=
    match body with
    | Except.ok () =>
      match commitResult with
      | Except.ok () => ([SessionEvent.commit], none)
      | Except.error e => ([SessionEvent.commit, SessionEvent.rollback], some e)
    | Except.error e => ([SessionEvent.rollback], some e)
  (inner.1 ++ [SessionEvent.close], inner.2)

/-! ## Schema provisioning: init_operational_db (database.py lines 192-201) -/

/-- Table names declared on OperationalBase in operational/models.py. -/
def operationalTables : List String := ["ingest_runs", "heartbeats"]

/-- Embedding of metadata.create_all on an engine whose database holds
the given tables: each declared table is created only if absent. -/
def metadata_create_all (metadataTables : List String) (tables : List String) :
    List String :=
  tables ++ metadataTables.filter (fun t => !(tables.contains t))

/-- Embedding of init_operational_db at the level of one engine's
database: create the OperationalBase tables if absent. -/
def init_operational_db (tables : List String) : List String :=
  metadata_create_all operationalTables tables

/-- Embedding of the table inspection used for status queries: the names
of the tables present, with no mutation. -/
def list_tables (tables : List String) : List String := tables

/-! ## Operational models: operational/models.py -/

/-- Status enum of an ingest run. -/
inductive RunStatus where
  | PENDING
  | RUNNING
  | COMPLETED
  | FAILED
  | CANCELLED
deriving DecidableEq, Repr

/-- The three absorbing statuses of the documented state machine. -/
def RunStatus.isTerminal : RunStatus → Bool
  | RunStatus.COMPLETED => true
  | RunStatus.FAILED => true
  | RunStatus.CANCELLED => true
  | _ => false

/-- Status enum of an ingestor heartbeat. -/
inductive HeartbeatStatus where
  | HEALTHY
  | DEGRADED
  | OFFLINE
deriving DecidableEq, Repr

/-- A row of the ingest_runs table. -/
structure IngestRunRow where
  id : Nat
  project_id : Int
  started_at : Nat
  finished_at : Option Nat
  status : RunStatus
  file_count : Int
  total_bytes : Int
  error_count : Int
  message : Option String
  log_pointer : Option String
  triggered_by : Option String
  ingestor_id : Option String
deriving DecidableEq, Repr

/-- A row of the heartbeats table; ingestor_id carries a UNIQUE
constraint, watched_paths stores a JSON text dump. -/
structure HeartbeatRow where
  id : Nat
  ingestor_id : String
  hostname : Option String
  last_seen_at : Nat
  status : HeartbeatStatus
  message : Option String
  watched_paths : Option String
  version : Option String
deriving DecidableEq, Repr

/-- One operational database: its two tables plus autoincrement counters
for the primary keys. -/
structure OpsDB where
  runs : List IngestRunRow
  heartbeats : List HeartbeatRow
  nextRunId : Nat
  nextHbId : Nat
deriving DecidableEq, Repr

/-- A database with the schema provisioned and no rows. -/
def emptyOpsDB : OpsDB :=
  { runs := [], heartbeats := [], nextRunId := 1, nextHbId := 1 }

/-- The world an OperationalService call sees: the central supervisors
table, and for every DSN the operational database it names. -/
structure World where
  central : List Supervisor
  stores : String → OpsDB

/-- The operational database a session bound to a DSN reads. -/
def World.store (w : World) (dsn : String) : OpsDB := w.stores dsn

/-- Commit of a scoped session: the DSN's database is replaced. -/
def World.setStore (w : World) (dsn : String) (db : OpsDB) : World :=
  { w with stores := fun d => if d = dsn then db else w.stores d }

/-! ## OperationalService: services/operational_service.py -/

/-- Embedding of create_ingest_run (operational_service.py lines 37-71):
insert a PENDING row with started_at the current tick, return its id,
project and status as the detached summary. -/
def create_ingest_run (w : World) (supervisorId : Nat) (project_id : Int)
    (triggered_by : String) (ingestor_id : Option String) (now : Nat) :
    Except OperationalDBError (Nat × Int × RunStatus) × World :=
  match resolveDsn w.central supervisorId with
  | Except.error e => (Except.error e, w)
  | Except.ok dsn =>
    let db := w.store dsn
    let run : IngestRunRow :=
      { id := db.nextRunId, project_id := project_id, started_at := now,
        finished_at := none, status := RunStatus.PENDING, file_count := 0,
        total_bytes := 0, error_count := 0, message := none,
        log_pointer := none, triggered_by := some triggered_by,
        ingestor_id := ingestor_id }
    let db₁ : OpsDB := { db with runs := db.runs ++ [run], nextRunId := db.nextRunId + 1 }
    (Except.ok (run.id, run.project_id, run.status), w.setStore dsn db₁)

/-- Keyword arguments of update_ingest_run with their Python defaults. -/
structure UpdateRunArgs where
  status : Option RunStatus := none
  file_count : Option Int := none
  total_bytes : Option Int := none
  error_count : Option Int := none
  message : Option String := none
  finished : Bool := false
deriving DecidableEq, Repr

/-- The field mutations of update_ingest_run (operational_service.py
lines 104-115): every supplied (non-None) argument overwrites the stored
field, and finished marks finished_at with the current tick. -/
def applyRunUpdate (args : UpdateRunArgs) (now : Nat) (run : IngestRunRow) :
    IngestRunRow :=
  let run := match args.status with
    | some v => { run with status := v }
    | none => run
  let run := match args.file_count with
    | some v => { run with file_count := v }
    | none => run
  let run := match args.total_bytes with
    | some v => { run with total_bytes := v }
    | none => run
  let run := match args.error_count with
    | some v => { run with error_count := v }
    | none => run
  let run := match args.message with
    | some v => { run with message := some v }
    | none => run
  if args.finished then { run with finished_at := some now } else run

/-- Replacement of the single row the query .first() returned, keyed by
the run id. -/
def replaceFirstRun (l : List IngestRunRow) (runId : Nat)
    (next : IngestRunRow) : List IngestRunRow :=
  match l with
  | [] => []
  | r :: rest =>
    if r.id == runId then next :: rest else r :: replaceFirstRun rest runId next

/-- Embedding of update_ingest_run (operational_service.py lines 73-129):
inside the tenant's session scope, load the row by id, raise the
IngestRun-not-found OperationalDBError if absent (rolling back, so the
world is unchanged), else apply the supplied fields and commit.  The ok
payload is the updated row, which determines the returned dict. -/
def update_ingest_run (w : World) (supervisorId : Nat) (runId : Nat)
    (args : UpdateRunArgs) (now : Nat) :
    Except OperationalDBError IngestRunRow × World :=
  match resolveDsn w.central supervisorId with
  | Except.error e => (Except.error e, w)
  | Except.ok dsn =>
    let db := w.store dsn
    match db.runs.find? (fun r => r.id == runId) with
    | none => (Except.error (OperationalDBError.ingestRunNotFound runId), w)
    | some run =>
      let run₁ := applyRunUpdate args now run
      let db₁ : OpsDB := { db with runs := replaceFirstRun db.runs runId run₁ }
      (Except.ok run₁, w.setStore dsn db₁)

/-- Keyword arguments of record_heartbeat with their Python defaults:
status is not optional and defaults to HEALTHY, all other fields default
to None. -/
structure HeartbeatArgs where
  hostname : Option String := none
  status : HeartbeatStatus := HeartbeatStatus.HEALTHY
  message : Option String := none
  watched_paths : Option (List String) := none
  version : Option String := none
deriving DecidableEq, Repr

/-- The JSON text json.dumps produces for a list of path strings. -/
def jsonDumps (xs : List String) : String :=
  "[" ++ String.intercalate ", " (xs.map (fun x => "\x22" ++ x ++ "\x22")) ++ "]"

/-- The update branch of record_heartbeat (operational_service.py lines
211-222): last_seen_at is refreshed and status overwritten
unconditionally; hostname, message, watched_paths and version are
overwritten only when supplied (not None). -/
def updateHeartbeatRow (args : HeartbeatArgs) (now : Nat) (hb : HeartbeatRow) :
    HeartbeatRow :=
  let hb := { hb with last_seen_at := now, status := args.status }
  let hb := match args.hostname with
    | some v => { hb with hostname := some v }
    | none => hb
  let hb := match args.message with
    | some v => { hb with message := some v }
    | none => hb
  let hb := match args.watched_paths with
    | some v => { hb with watched_paths := some (jsonDumps v) }
    | none => hb
  match args.version with
    | some v => { hb with version := some v }
    | none => hb

/-- The create branch of record_heartbeat (operational_service.py lines
224-233): a fresh row whose watched_paths is dumped only when the list
argument is truthy (a supplied empty list is stored as None, mirroring
the if-else expression on line 230). -/
def insertedHeartbeatRow (db : OpsDB) (ingestorId : String)
    (args : HeartbeatArgs) (now : Nat) : HeartbeatRow :=
  { id := db.nextHbId, ingestor_id := ingestorId, hostname := args.hostname,
    last_seen_at := now, status := args.status, message := args.message,
    watched_paths := match args.watched_paths with
      | some [] => none
      | some v => some (jsonDumps v)
      | none => none,
    version := args.version }

/-- Replacement of the single row the query .first() returned, keyed by
the ingestor id. -/
def replaceFirstHb (l : List HeartbeatRow) (ingestorId : String)
    (next : HeartbeatRow) : List HeartbeatRow :=
  match l with
  | [] => []
  | h :: rest =>
    if h.ingestor_id == ingestorId then next :: rest
    else h :: replaceFirstHb rest ingestorId next

/-- Embedding of record_heartbeat (operational_service.py lines 177-244):
upsert keyed on ingestor_id.  An existing row is updated in place via
updateHeartbeatRow; otherwise a new row is inserted, where the create
branch dumps watched_paths only when the list is truthy (a supplied
empty list is stored as None, mirroring the if-else expression on line
230). -/
def record_heartbeat (w : World) (supervisorId : Nat) (ingestorId : String)
    (args : HeartbeatArgs) (now : Nat) :
    Except OperationalDBError HeartbeatRow × World :=
  match resolveDsn w.central supervisorId with
  | Except.error e => (Except.error e, w)
  | Except.ok dsn =>
    let db := w.store dsn
    match db.heartbeats.find? (fun h => h.ingestor_id == ingestorId) with
    | some hb =>
      let hb₁ := updateHeartbeatRow args now hb
      let db₁ : OpsDB :=
        { db with heartbeats := replaceFirstHb db.heartbeats ingestorId hb₁ }
      (Except.ok hb₁, w.setStore dsn db₁)
    | none =>
      let hb₁ : HeartbeatRow := insertedHeartbeatRow db ingestorId args now
      let db₁ : OpsDB :=
        { db with heartbeats := db.heartbeats ++ [hb₁], nextHbId := db.nextHbId + 1 }
      (Except.ok hb₁, w.setStore dsn db₁)

/-! ## Interleaved executions of get_operational_engine

Every call runs its whole body inside a with-block on the single
module-level cache lock of database.py line 72.  A thread therefore has
two atomic transitions: acquiring that lock, and running the body (cache
check, construction on a miss, insertion) before releasing the lock.
The builds field records every engine construction performed, labelled
with its DSN, so that counting constructions per DSN is direct. -/

/-- Progress of one thread through get_operational_engine. -/
inductive Phase where
  | idle
  | holding
  | done
deriving DecidableEq, Repr

/-- One thread of a concurrent execution: the DSN it requests, its
phase, and the engine it received once done. -/
structure CThread where
  dsn : String
  phase : Phase
  result : Option Engine
deriving DecidableEq, Repr

/-- Shared state of an interleaved execution: the holder of the module
cache lock, the engine cache and allocation counter, the log of engine
constructions by DSN, and the threads. -/
structure ConcState where
  lock : Option Nat
  cache : List (String × CachedConn)
  nextId : Nat
  builds : List String
  threads : List CThread
deriving DecidableEq, Repr

/-- Cache lookup by DSN, shared with the sequential embedding. -/
def ConcState.lookup (s : ConcState) (dsn : String) : Option CachedConn :=
  (s.cache.find? (fun p => p.1 == dsn)).map Prod.snd

/-- One atomic transition of thread i.  acquire takes the free module
lock; runHit returns the cached engine and releases; runMiss constructs
the engine (construction succeeding), inserts it and releases. -/
inductive StepBy : Nat → ConcState → ConcState → Prop where
  | acquire (i : Nat) (s : ConcState) (t : CThread)
      (hget : s.threads.get? i = some t)
      (hidle : t.phase = Phase.idle)
      (hlock : s.lock = none) :
      StepBy i s
        { s with lock := some i,
                 threads := s.threads.set i { t with phase := Phase.holding } }
  | runHit (i : Nat) (s : ConcState) (t : CThread) (conn : CachedConn)
      (hget : s.threads.get? i = some t)
      (hphase : t.phase = Phase.holding)
      (hlock : s.lock = some i)
      (hfound : s.lookup t.dsn = some conn) :
      StepBy i s
        { s with lock := none,
                 threads := s.threads.set i
                   { t with phase := Phase.done, result := some conn.engine } }
  | runMiss (i : Nat) (s : ConcState) (t : CThread)
      (hget : s.threads.get? i = some t)
      (hphase : t.phase = Phase.holding)
      (hlock : s.lock = some i)
      (hmiss : s.lookup t.dsn = none) :
      StepBy i s
        { lock := none,
          cache := s.cache ++
            [(t.dsn, { engine := { engineId := s.nextId, dsn := t.dsn,
                                   pool := classifyDsn t.dsn },
                       sessionFactoryId := s.nextId })],
          nextId := s.nextId + 1,
          builds := s.builds ++ [t.dsn],
          threads := s.threads.set i
            { t with phase := Phase.done,
                     result := some { engineId := s.nextId, dsn := t.dsn,
                                      pool := classifyDsn t.dsn } } }

/-- Some thread takes one step. -/
def ConcStep (s₁ s₂ : ConcState) : Prop := ∃ i, StepBy i s₁ s₂

/-- Interleaved reachability: zero or more steps by arbitrary threads. -/
def ConcReach : ConcState → ConcState → Prop := Relation.ReflTransGen ConcStep

/-! ## Helper lemmas -/

/-- A cache lookup ignores every RouterState field except the cache. -/
theorem lookup_locked_false (s : RouterState) (dsn : String) :
    RouterState.lookup { s with locked := false } dsn = s.lookup dsn := rfl

/-- Membership in the tables produced by create_all: every declared table
is present afterwards. -/
theorem mem_metadata_create_all (m db : List String) (t : String) (h : t ∈ m) :
    t ∈ metadata_create_all m db := by
  unfold metadata_create_all
  by_cases hc : t ∈ db
  · exact List.mem_append_left _ hc
  · refine List.mem_append_right _ ?_
    refine List.mem_filter.mpr ⟨h, ?_⟩
    simpa [List.contains, List.elem_iff] using hc

/-- Running create_all a second time adds nothing. -/
theorem metadata_create_all_idem (m db : List String) :
    metadata_create_all m (metadata_create_all m db) = metadata_create_all m db := by
  have hnil :
      m.filter (fun t => !((metadata_create_all m db).contains t)) = [] := by
    refine List.filter_eq_nil_iff.mpr ?_
    intro t ht
    have : t ∈ metadata_create_all m db := mem_metadata_create_all m db t ht
    simp [List.contains, List.elem_iff, this]
  calc metadata_create_all m (metadata_create_all m db)
      = metadata_create_all m db ++
          m.filter (fun t => !((metadata_create_all m db).contains t)) := rfl
    _ = metadata_create_all m db ++ [] := by rw [hnil]
    _ = metadata_create_all m db := List.append_nil _

/-! ## Claims -/

/-- C3: operational_session_scope commits and then closes the session
when the body completes normally; on a body exception it rolls back,
closes, and re-raises the original exception unmodified; and the close
call is the last session event on every exit path, including a failing
commit. -/
theorem c3_session_scope_commit_rollback_close {ε : Type} (e : ε)
    (body commitResult : Except ε Unit) :
    operational_session_scope (Except.ok ()) (Except.ok () : Except ε Unit) =
      ([SessionEvent.commit, SessionEvent.close], none) ∧
    operational_session_scope (Except.error e) commitResult =
      ([SessionEvent.rollback, SessionEvent.close], some e) ∧
    (operational_session_scope body commitResult).1.getLast? =
      some SessionEvent.close := by
  refine ⟨rfl, rfl, ?_⟩
  unfold operational_session_scope
  cases body with
  | ok u => cases u; cases commitResult <;> simp
  | error e₁ => simp

/-- C9: init_operational_db is idempotent: a second invocation returns
(and never raises, being total in the model of create-if-not-exists)
exactly the table list of the first, on a fresh database that list is
precisely ingest_runs and heartbeats, and both operational tables are
present after the first invocation on any database. -/
theorem c9_init_operational_db_idempotent (tables : List String) :
    list_tables (init_operational_db (init_operational_db tables)) =
      list_tables (init_operational_db tables) ∧
    list_tables (init_operational_db []) = ["ingest_runs", "heartbeats"] ∧
    "ingest_runs" ∈ list_tables (init_operational_db tables) ∧
    "heartbeats" ∈ list_tables (init_operational_db tables) := by
  refine ⟨?_, rfl, ?_, ?_⟩
  · exact metadata_create_all_idem operationalTables tables
  · exact mem_metadata_create_all _ _ _ (by simp [operationalTables])
  · exact mem_metadata_create_all _ _ _ (by simp [operationalTables])

/-- C1: after a call to get_operational_engine has produced an engine for
a DSN, a second call with the exact same DSN string returns that very
engine (value equality being object identity, since engines carry their
allocation number) and leaves the cache state completely unchanged. -/
theorem c1_get_connection_identity_stable (createOk : String → Bool)
    (dsn : String) (s s₁ : RouterState) (e₁ : Engine)
    (h : get_operational_engine createOk dsn s = (Except.ok e₁, s₁)) :
    get_operational_engine createOk dsn s₁ = (Except.ok e₁, s₁) := by
  unfold get_operational_engine at h ⊢
  cases hl : s.lookup dsn with
  | some conn =>
    rw [hl] at h
    have he₁ : e₁ = conn.engine := by
      simpa using (congrArg (fun x => x.1) h).symm
    have hs₁ : s₁ = { s with locked := false } := by
      simpa using (congrArg (fun x => x.2) h).symm
    have hlook : s₁.lookup dsn = some conn := by
      rw [hs₁, lookup_locked_false, hl]
    rw [hlook, he₁]
    have : ({ s₁ with locked := false } : RouterState) = s₁ := by
      rw [hs₁]
    rw [this]
  | none =>
    rw [hl] at h
    cases hc : createOk dsn with
    | true =>
      rw [hc] at h
      simp only [if_true] at h
      have he₁ : e₁ = { engineId := s.nextId, dsn := dsn, pool := classifyDsn dsn } := by
        simpa using (congrArg (fun x => x.1) h).symm
      have hs₁ : s₁ =
          { cache := s.cache ++
              [(dsn, { engine := { engineId := s.nextId, dsn := dsn, pool := classifyDsn dsn },
                       sessionFactoryId := s.nextId })],
            nextId := s.nextId + 1, attempts := s.attempts + 1, locked := false } := by
        simpa using (congrArg (fun x => x.2) h).symm
      have hfind : s.cache.find? (fun p => p.1 == dsn) = none := by
        have := hl
        unfold RouterState.lookup at this
        cases hf : s.cache.find? (fun p => p.1 == dsn) with
        | none => rfl
        | some v => rw [hf] at this; simp at this
      have hlook : s₁.lookup dsn = some
          { engine := { engineId := s.nextId, dsn := dsn, pool := classifyDsn dsn },
            sessionFactoryId := s.nextId } := by
        rw [hs₁]
        unfold RouterState.lookup
        simp [List.find?_append, hfind]
      rw [hlook]
      simp only []
      refine congrArg₂ Prod.mk ?_ ?_
      · rw [he₁]
      · rw [hs₁]
    | false =>
      rw [hc] at h
      simp at h

/-- Engine fixture for the C1 witness: the engine a cold-cache call for
the DSN db1 constructs. -/
def c1Engine : Engine := { engineId := 0, dsn := "db1", pool := classifyDsn "db1" }

/-- Router-state fixture for the C1 witness: the cache state left by a
first call for the DSN db1 on a cold cache. -/
def c1Cached : RouterState :=
  { cache := [("db1", { engine := c1Engine, sessionFactoryId := 0 })],
    nextId := 1, attempts := 1, locked := false }

/-- Witness for C1: a concrete second call on the state a first call on
a cold cache produced returns the identical engine and state. -/
theorem c1_witness :
    get_operational_engine (fun _ => true) "db1" c1Cached = (Except.ok c1Engine, c1Cached) :=
  c1_get_connection_identity_stable (fun _ => true) "db1"
    { cache := [], nextId := 0, attempts := 0, locked := false } c1Cached c1Engine rfl

/-- C6: resolving an unknown supervisor id fails with the
supervisor-not-found error, and resolving a supervisor that exists but
has no DSN fails with MissingDSNError; in both cases the router state is
returned untouched, so no engine construction is ever attempted before
the DSN check and the failure is never UnreachableDSNError. -/
theorem c6_error_taxonomy_ordering (createOk : String → Bool)
    (central : List Supervisor) (supervisorId : Nat) (s : RouterState) :
    (central.find? (fun sup => sup.id == supervisorId) = none →
      get_operational_session createOk central supervisorId s =
        (Except.error (OperationalDBError.supervisorNotFound supervisorId), s)) ∧
    (∀ sup, central.find? (fun sup => sup.id == supervisorId) = some sup →
      sup.supervisor_db_dsn = none →
      get_operational_session createOk central supervisorId s =
        (Except.error (OperationalDBError.missingDSN supervisorId sup.name), s)) := by
  constructor
  · intro h
    simp [get_operational_session, resolveDsn, h]
  · intro sup hfind hdsn
    simp [get_operational_session, resolveDsn, hfind, hdsn]

/-- Witness for C6 at an empty central table and at a supervisor row
with no DSN configured. -/
theorem c6_witness :
    get_operational_session (fun _ => true) [] 7
      { cache := [], nextId := 0, attempts := 0, locked := false } =
      (Except.error (OperationalDBError.supervisorNotFound 7),
       { cache := [], nextId := 0, attempts := 0, locked := false }) ∧
    get_operational_session (fun _ => true)
      [{ id := 5, name := some "lab", supervisor_db_dsn := none }] 5
      { cache := [], nextId := 0, attempts := 0, locked := false } =
      (Except.error (OperationalDBError.missingDSN 5 (some "lab")),
       { cache := [], nextId := 0, attempts := 0, locked := false }) :=
  ⟨(c6_error_taxonomy_ordering (fun _ => true) [] 7 _).1 rfl,
   (c6_error_taxonomy_ordering (fun _ => true)
      [{ id := 5, name := some "lab", supervisor_db_dsn := none }] 5 _).2
      { id := 5, name := some "lab", supervisor_db_dsn := none } rfl rfl⟩

/-- C8: when engine construction raises for a DSN that is not yet
cached, the session acquisition path surfaces it as UnreachableDSNError
wrapping the original exception, the cache is left exactly as before
(only the attempt counter moved), and the module lock is released. -/
theorem c8_failed_construction_raises_connectivity_error
    (createOk : String → Bool) (central : List Supervisor)
    (supervisorId : Nat) (dsn : String) (s : RouterState)
    (hres : resolveDsn central supervisorId = Except.ok dsn)
    (hmiss : s.lookup dsn = none)
    (hfail : createOk dsn = false) :
    get_operational_session createOk central supervisorId s =
      (Except.error (OperationalDBError.unreachableDSN supervisorId dsn
          (RawEngineError.createFailed dsn)),
       { s with attempts := s.attempts + 1, locked := false }) ∧
    ({ s with attempts := s.attempts + 1, locked := false } : RouterState).cache =
      s.cache ∧
    ({ s with attempts := s.attempts + 1, locked := false } : RouterState).locked =
      false := by
  refine ⟨?_, rfl, rfl⟩
  have h1 : get_operational_engine createOk dsn s =
      (Except.error (RawEngineError.createFailed dsn),
       { s with attempts := s.attempts + 1, locked := false }) := by
    unfold get_operational_engine
    rw [hmiss, hfail]
    simp
  simp [get_operational_session, get_session_factory, hres, hmiss, h1]

/-- Witness for C8: a DSN whose construction always fails, on a cold
cache, yields UnreachableDSNError and no cache entry. -/
theorem c8_witness :
    get_operational_session (fun _ => false)
      [{ id := 1, name := some "lab", supervisor_db_dsn := some "bad" }] 1
      { cache := [], nextId := 0, attempts := 0, locked := false } =
      (Except.error (OperationalDBError.unreachableDSN 1 "bad"
          (RawEngineError.createFailed "bad")),
       { cache := [], nextId := 0, attempts := 1, locked := false }) :=
  (c8_failed_construction_raises_connectivity_error (fun _ => false)
    [{ id := 1, name := some "lab", supervisor_db_dsn := some "bad" }] 1 "bad"
    { cache := [], nextId := 0, attempts := 0, locked := false } rfl rfl rfl).1

/-- C4: updating a run id with no matching row in the tenant database
the call resolved to raises the IngestRun-not-found error and leaves the
world unchanged, and the call succeeds exactly when a matching row
exists in that tenant's database. -/
theorem c4_update_run_tenant_isolation (w : World) (supervisorId runId : Nat)
    (dsn : String) (args : UpdateRunArgs) (now : Nat)
    (hres : resolveDsn w.central supervisorId = Except.ok dsn) :
    ((w.store dsn).runs.find? (fun r => r.id == runId) = none →
      update_ingest_run w supervisorId runId args now =
        (Except.error (OperationalDBError.ingestRunNotFound runId), w)) ∧
    ((∃ out, (update_ingest_run w supervisorId runId args now).1 = Except.ok out) ↔
      ∃ r ∈ (w.store dsn).runs, r.id = runId) := by
  constructor
  · intro h
    simp [update_ingest_run, hres, h]
  · cases hf : (w.store dsn).runs.find? (fun r => r.id == runId) with
    | none =>
      constructor
      · rintro ⟨out, hout⟩
        simp [update_ingest_run, hres, hf] at hout
      · rintro ⟨r, hr, hid⟩
        have hnone := List.find?_eq_none.mp hf r hr
        simp [hid] at hnone
    | some run =>
      constructor
      · rintro -
        exact ⟨run, List.mem_of_find?_eq_some hf, by simpa using List.find?_some hf⟩
      · rintro -
        refine ⟨applyRunUpdate args now run, ?_⟩
        simp [update_ingest_run, hres, hf]

/-- Witness for C4: an update against a tenant whose store has no runs
at all fails with the IngestRun-not-found error and changes nothing. -/
theorem c4_witness :
    update_ingest_run
      { central := [{ id := 2, name := some "lab-b", supervisor_db_dsn := some "b" }],
        stores := fun _ => emptyOpsDB } 2 41 {} 0 =
      (Except.error (OperationalDBError.ingestRunNotFound 41),
       { central := [{ id := 2, name := some "lab-b", supervisor_db_dsn := some "b" }],
         stores := fun _ => emptyOpsDB }) :=
  (c4_update_run_tenant_isolation
    { central := [{ id := 2, name := some "lab-b", supervisor_db_dsn := some "b" }],
      stores := fun _ => emptyOpsDB } 2 41 "b" {} 0 rfl).1 rfl

/-- Ingest-run fixture for C2: a run already in the terminal status
COMPLETED with finished_at set. -/
def c2Run : IngestRunRow :=
  { id := 1, project_id := 10, started_at := 0, finished_at := some 5,
    status := RunStatus.COMPLETED, file_count := 3, total_bytes := 100,
    error_count := 0, message := none, log_pointer := none,
    triggered_by := some "api", ingestor_id := none }

/-- World fixture for C2: one supervisor whose operational store holds
exactly the completed run c2Run. -/
def c2World : World :=
  { central := [{ id := 1, name := some "lab-a", supervisor_db_dsn := some "opdb" }],
    stores := fun _ =>
      { runs := [c2Run], heartbeats := [], nextRunId := 2, nextHbId := 1 } }

/-- C2 counterexample: the claim that terminal statuses are immutable
and finished_at is set at most once fails on the code.  On a run whose
status is the terminal COMPLETED with finished_at already set,
update_ingest_run with status RUNNING and finished true succeeds and
returns the row with its status changed away from the terminal status
and its finished_at overwritten a second time. -/
theorem c2_counterexample :
    RunStatus.isTerminal c2Run.status = true ∧
    (update_ingest_run c2World 1 1
        { status := some RunStatus.RUNNING, finished := true } 9).1 =
      Except.ok { c2Run with status := RunStatus.RUNNING, finished_at := some 9 } ∧
    ({ c2Run with status := RunStatus.RUNNING, finished_at := some 9 }).status ≠
      c2Run.status ∧
    ({ c2Run with status := RunStatus.RUNNING, finished_at := some 9 }).finished_at ≠
      c2Run.finished_at := by
  refine ⟨rfl, ?_, by decide, by decide⟩
  rfl

/-- C2 amended: update_ingest_run does not enforce the run state
machine.  A found row is updated by applyRunUpdate, whose resulting
status is always the supplied status when one is given (the stored one
otherwise), regardless of whether the stored status is terminal, and
whose finished_at is rewritten to the current time on every call with
finished true (not at most once); monotonicity of terminal states is a
caller contract, not a property of the store. -/
theorem c2_amended_update_applies_fields_unconditionally (w : World)
    (supervisorId runId : Nat) (dsn : String) (args : UpdateRunArgs)
    (now : Nat) (run : IngestRunRow)
    (hres : resolveDsn w.central supervisorId = Except.ok dsn)
    (hfind : (w.store dsn).runs.find? (fun r => r.id == runId) = some run) :
    (update_ingest_run w supervisorId runId args now).1 =
      Except.ok (applyRunUpdate args now run) ∧
    (applyRunUpdate args now run).status = args.status.getD run.status ∧
    (applyRunUpdate args now run).finished_at =
      (if args.finished then some now else run.finished_at) := by
  refine ⟨?_, ?_, ?_⟩
  · simp [update_ingest_run, hres, hfind]
  · rcases args with ⟨st, fc, tb, ec, msg, fin⟩
    cases st <;> cases fc <;> cases tb <;> cases ec <;> cases msg <;> cases fin <;>
      simp [applyRunUpdate]
  · rcases args with ⟨st, fc, tb, ec, msg, fin⟩
    cases st <;> cases fc <;> cases tb <;> cases ec <;> cases msg <;> cases fin <;>
      simp [applyRunUpdate]

/-- Witness for the amended C2: overwriting the terminal COMPLETED run
with CANCELLED at a concrete world. -/
theorem c2_amended_witness :
    (update_ingest_run c2World 1 1 { status := some RunStatus.CANCELLED } 7).1 =
      Except.ok (applyRunUpdate { status := some RunStatus.CANCELLED } 7 c2Run) ∧
    (applyRunUpdate { status := some RunStatus.CANCELLED } 7 c2Run).status =
      (some RunStatus.CANCELLED : Option RunStatus).getD c2Run.status ∧
    (applyRunUpdate { status := some RunStatus.CANCELLED } 7 c2Run).finished_at =
      (if ({ status := some RunStatus.CANCELLED } : UpdateRunArgs).finished
        then some 7 else c2Run.finished_at) :=
  c2_amended_update_applies_fields_unconditionally c2World 1 1 "opdb"
    { status := some RunStatus.CANCELLED } 7 c2Run rfl rfl

/-- C10: on an existing heartbeat row the stored status is overwritten
unconditionally with the status argument of the call, whose default
value is HEALTHY, so a repeat call that omits status resets a DEGRADED
or OFFLINE ingestor to HEALTHY; the four None-defaulted fields hostname,
message, watched_paths and version are left unchanged when omitted. -/
theorem c10_heartbeat_status_overwritten_with_default_healthy (w : World)
    (supervisorId : Nat) (dsn ingestorId : String) (args : HeartbeatArgs)
    (now : Nat) (hb : HeartbeatRow)
    (hres : resolveDsn w.central supervisorId = Except.ok dsn)
    (hfind : (w.store dsn).heartbeats.find?
      (fun h => h.ingestor_id == ingestorId) = some hb) :
    (record_heartbeat w supervisorId ingestorId args now).1 =
      Except.ok (updateHeartbeatRow args now hb) ∧
    (updateHeartbeatRow args now hb).status = args.status ∧
    ({} : HeartbeatArgs).status = HeartbeatStatus.HEALTHY ∧
    (updateHeartbeatRow { status := args.status } now hb).hostname = hb.hostname ∧
    (updateHeartbeatRow { status := args.status } now hb).message = hb.message ∧
    (updateHeartbeatRow { status := args.status } now hb).watched_paths =
      hb.watched_paths ∧
    (updateHeartbeatRow { status := args.status } now hb).version = hb.version := by
  refine ⟨?_, ?_, rfl, rfl, rfl, rfl, rfl⟩
  · simp [record_heartbeat, hres, hfind]
  · rcases args with ⟨hn, st, msg, wp, vr⟩
    cases hn <;> cases msg <;> cases wp <;> cases vr <;> simp [updateHeartbeatRow]

/-- Heartbeat fixture for the C10 witness: an ingestor last reported
DEGRADED. -/
def c10Hb : HeartbeatRow :=
  { id := 1, ingestor_id := "ing-1", hostname := some "host-1", last_seen_at := 3,
    status := HeartbeatStatus.DEGRADED, message := some "disk filling",
    watched_paths := none, version := some "1.0" }

/-- World fixture for the C10 witness. -/
def c10World : World :=
  { central := [{ id := 3, name := some "lab-c", supervisor_db_dsn := some "opdb" }],
    stores := fun _ =>
      { runs := [], heartbeats := [c10Hb], nextRunId := 1, nextHbId := 2 } }

/-- Witness for C10: a repeat heartbeat with every argument left at its
default resets the DEGRADED row to HEALTHY and changes no other field. -/
theorem c10_witness :
    (record_heartbeat c10World 3 "ing-1" {} 9).1 =
      Except.ok (updateHeartbeatRow {} 9 c10Hb) ∧
    (updateHeartbeatRow {} 9 c10Hb).status = ({} : HeartbeatArgs).status ∧
    ({} : HeartbeatArgs).status = HeartbeatStatus.HEALTHY ∧
    (updateHeartbeatRow { status := ({} : HeartbeatArgs).status } 9 c10Hb).hostname =
      c10Hb.hostname ∧
    (updateHeartbeatRow { status := ({} : HeartbeatArgs).status } 9 c10Hb).message =
      c10Hb.message ∧
    (updateHeartbeatRow { status := ({} : HeartbeatArgs).status } 9 c10Hb).watched_paths =
      c10Hb.watched_paths ∧
    (updateHeartbeatRow { status := ({} : HeartbeatArgs).status } 9 c10Hb).version =
      c10Hb.version :=
  c10_heartbeat_status_overwritten_with_default_healthy c10World 3 "opdb" "ing-1"
    {} 9 c10Hb rfl rfl

/-- Number of heartbeat rows of a store carrying a given ingestor id. -/
def hbCount (db : OpsDB) (ingestorId : String) : Nat :=
  (db.heartbeats.filter (fun h => h.ingestor_id == ingestorId)).length

/-- Updating a heartbeat row never changes its ingestor id. -/
theorem updateHeartbeatRow_ingestor_id (args : HeartbeatArgs) (now : Nat)
    (hb : HeartbeatRow) :
    (updateHeartbeatRow args now hb).ingestor_id = hb.ingestor_id := by
  rcases args with ⟨hn, st, msg, wp, vr⟩
  cases hn <;> cases msg <;> cases wp <;> cases vr <;> simp [updateHeartbeatRow]

/-- Replacing the first row matching a key by a row that still carries
that key preserves the number of matching rows. -/
theorem length_filter_replaceFirstHb (l : List HeartbeatRow) (key : String)
    (next : HeartbeatRow) (hkey : next.ingestor_id = key) :
    ((replaceFirstHb l key next).filter (fun h => h.ingestor_id == key)).length =
      (l.filter (fun h => h.ingestor_id == key)).length := by
  induction l with
  | nil => rfl
  | cons h t ih =>
    by_cases hh : (h.ingestor_id == key) = true
    · simp [replaceFirstHb, hh, List.filter_cons, hkey]
    · simp [replaceFirstHb, hh, List.filter_cons, ih]

/-- After replacing the first row matching a key by a row still carrying
that key, a find? for the key returns the replacement. -/
theorem find?_replaceFirstHb (l : List HeartbeatRow) (key : String)
    (next hb : HeartbeatRow)
    (hfind : l.find? (fun h => h.ingestor_id == key) = some hb)
    (hkey : next.ingestor_id = key) :
    (replaceFirstHb l key next).find? (fun h => h.ingestor_id == key) = some next := by
  induction l with
  | nil => simp at hfind
  | cons h t ih =>
    by_cases hh : (h.ingestor_id == key) = true
    · simp [replaceFirstHb, hh, List.find?_cons, hkey]
    · simp only [List.find?_cons, hh] at hfind
      simp only [replaceFirstHb, hh, if_false, Bool.false_eq_true]
      simp only [List.find?_cons, hh]
      exact ih (by simpa using hfind)

/-- Appending a row matching the predicate to a list with no match makes
it the row find? returns. -/
theorem find?_append_single_of_none {α : Type} (p : α → Bool) (l : List α)
    (x : α) (hl : l.find? p = none) (hx : p x = true) :
    (l ++ [x]).find? p = some x := by
  rw [List.find?_append, hl]
  simp [hx]

/-- Reading back the store a commit just replaced yields it. -/
theorem World.store_setStore (w : World) (dsn : String) (db : OpsDB) :
    (w.setStore dsn db).store dsn = db := by
  simp [World.store, World.setStore]

/-- Upsert behaviour of record_heartbeat: on any store holding at most
one row for the ingestor id, the call succeeds with a row carrying that
id, afterwards exactly one such row exists, and a lookup finds exactly
the returned row.  The central table is untouched. -/
theorem record_heartbeat_upsert (w : World) (supervisorId : Nat)
    (dsn ingestorId : String) (args : HeartbeatArgs) (now : Nat)
    (hres : resolveDsn w.central supervisorId = Except.ok dsn)
    (hle : hbCount (w.store dsn) ingestorId ≤ 1) :
    ∃ row w₁,
      record_heartbeat w supervisorId ingestorId args now = (Except.ok row, w₁) ∧
      row.ingestor_id = ingestorId ∧
      w₁.central = w.central ∧
      hbCount (w₁.store dsn) ingestorId = 1 ∧
      (w₁.store dsn).heartbeats.find? (fun h => h.ingestor_id == ingestorId) =
        some row := by
  cases hf : (w.store dsn).heartbeats.find? (fun h => h.ingestor_id == ingestorId) with
  | none =>
    have hfe : (w.store dsn).heartbeats.filter (fun h => h.ingestor_id == ingestorId) = [] :=
      List.filter_eq_nil_iff.mpr (List.find?_eq_none.mp hf)
    refine ⟨insertedHeartbeatRow (w.store dsn) ingestorId args now,
      w.setStore dsn
        { w.store dsn with
          heartbeats := (w.store dsn).heartbeats ++
            [insertedHeartbeatRow (w.store dsn) ingestorId args now],
          nextHbId := (w.store dsn).nextHbId + 1 },
      ?_, rfl, rfl, ?_, ?_⟩
    · simp [record_heartbeat, hres, hf]
    · rw [World.store_setStore]
      show (((w.store dsn).heartbeats ++
          [insertedHeartbeatRow (w.store dsn) ingestorId args now]).filter
          (fun h => h.ingestor_id == ingestorId)).length = 1
      rw [List.filter_append, hfe]
      simp [insertedHeartbeatRow]
    · rw [World.store_setStore]
      exact find?_append_single_of_none _ _ _ hf (by simp [insertedHeartbeatRow])
  | some hb =>
    have hbid : hb.ingestor_id = ingestorId := by
      simpa using List.find?_some hf
    have hmem : hb ∈ (w.store dsn).heartbeats.filter (fun h => h.ingestor_id == ingestorId) :=
      List.mem_filter.mpr ⟨List.mem_of_find?_eq_some hf, by simp [hbid]⟩
    have hone : hbCount (w.store dsn) ingestorId = 1 := by
      have hpos := List.length_pos_of_mem hmem
      unfold hbCount at hle ⊢
      omega
    have hkey : (updateHeartbeatRow args now hb).ingestor_id = ingestorId := by
      rw [updateHeartbeatRow_ingestor_id, hbid]
    refine ⟨updateHeartbeatRow args now hb,
      w.setStore dsn
        { w.store dsn with
          heartbeats := replaceFirstHb (w.store dsn).heartbeats ingestorId
            (updateHeartbeatRow args now hb) },
      ?_, hkey, rfl, ?_, ?_⟩
    · simp [record_heartbeat, hres, hf]
    · rw [World.store_setStore]
      exact (length_filter_replaceFirstHb (w.store dsn).heartbeats ingestorId
        _ hkey).trans hone
    · rw [World.store_setStore]
      exact find?_replaceFirstHb _ _ _ _ hf hkey

/-- C5: record_heartbeat called twice with the same ingestor id leaves
exactly one row with that id; the second call updates the row the first
call produced: last_seen_at is refreshed to the second time, each of the
four optional fields is overwritten exactly when supplied (non-None),
and is left at the value the first call stored when omitted. -/
theorem c5_record_heartbeat_twice_upsert (w : World) (supervisorId : Nat)
    (dsn ingestorId : String) (args₁ args₂ : HeartbeatArgs) (now₁ now₂ : Nat)
    (hres : resolveDsn w.central supervisorId = Except.ok dsn)
    (hle : hbCount (w.store dsn) ingestorId ≤ 1) :
    ∃ row₁ w₁ w₂,
      record_heartbeat w supervisorId ingestorId args₁ now₁ =
        (Except.ok row₁, w₁) ∧
      record_heartbeat w₁ supervisorId ingestorId args₂ now₂ =
        (Except.ok (updateHeartbeatRow args₂ now₂ row₁), w₂) ∧
      hbCount (w₂.store dsn) ingestorId = 1 ∧
      (updateHeartbeatRow args₂ now₂ row₁).last_seen_at = now₂ ∧
      (updateHeartbeatRow args₂ now₂ row₁).hostname =
        (match args₂.hostname with
          | some v => some v
          | none => row₁.hostname) ∧
      (updateHeartbeatRow args₂ now₂ row₁).message =
        (match args₂.message with
          | some v => some v
          | none => row₁.message) ∧
      (updateHeartbeatRow args₂ now₂ row₁).watched_paths =
        (match args₂.watched_paths with
          | some v => some (jsonDumps v)
          | none => row₁.watched_paths) ∧
      (updateHeartbeatRow args₂ now₂ row₁).version =
        (match args₂.version with
          | some v => some v
          | none => row₁.version) := by
  obtain ⟨row₁, w₁, hcall₁, hrow₁, hcentral₁, hcount₁, hfind₁⟩ :=
    record_heartbeat_upsert w supervisorId dsn ingestorId args₁ now₁ hres hle
  have hres₁ : resolveDsn w₁.central supervisorId = Except.ok dsn := by
    rw [hcentral₁]; exact hres
  have hkey₂ : (updateHeartbeatRow args₂ now₂ row₁).ingestor_id = ingestorId := by
    rw [updateHeartbeatRow_ingestor_id, hrow₁]
  refine ⟨row₁, w₁,
    w₁.setStore dsn
      { w₁.store dsn with
        heartbeats := replaceFirstHb (w₁.store dsn).heartbeats ingestorId
          (updateHeartbeatRow args₂ now₂ row₁) },
    hcall₁, ?_, ?_, ?_, ?_, ?_, ?_, ?_⟩
  · simp [record_heartbeat, hres₁, hfind₁]
  · rw [World.store_setStore]
    exact (length_filter_replaceFirstHb (w₁.store dsn).heartbeats ingestorId
      _ hkey₂).trans hcount₁
  · rcases args₂ with ⟨hn, st, msg, wp, vr⟩
    cases hn <;> cases msg <;> cases wp <;> cases vr <;> simp [updateHeartbeatRow]
  · rcases args₂ with ⟨hn, st, msg, wp, vr⟩
    cases hn <;> cases msg <;> cases wp <;> cases vr <;> simp [updateHeartbeatRow]
  · rcases args₂ with ⟨hn, st, msg, wp, vr⟩
    cases hn <;> cases msg <;> cases wp <;> cases vr <;> simp [updateHeartbeatRow]
  · rcases args₂ with ⟨hn, st, msg, wp, vr⟩
    cases hn <;> cases msg <;> cases wp <;> cases vr <;> simp [updateHeartbeatRow]
  · rcases args₂ with ⟨hn, st, msg, wp, vr⟩
    cases hn <;> cases msg <;> cases wp <;> cases vr <;> simp [updateHeartbeatRow]

/-- World fixture for the C5 witness: a tenant with an empty store. -/
def c5World : World :=
  { central := [{ id := 4, name := some "lab-d", supervisor_db_dsn := some "opdb" }],
    stores := fun _ => emptyOpsDB }

/-- Witness for C5: two concrete heartbeats for the same ingestor, the
first supplying a hostname, the second only a status. -/
theorem c5_witness :
    ∃ row₁ w₁ w₂,
      record_heartbeat c5World 4 "ing-1" { hostname := some "host-a" } 5 =
        (Except.ok row₁, w₁) ∧
      record_heartbeat w₁ 4 "ing-1" { status := HeartbeatStatus.DEGRADED } 9 =
        (Except.ok (updateHeartbeatRow { status := HeartbeatStatus.DEGRADED } 9 row₁),
         w₂) ∧
      hbCount (w₂.store "opdb") "ing-1" = 1 ∧
      (updateHeartbeatRow { status := HeartbeatStatus.DEGRADED } 9 row₁).last_seen_at =
        9 ∧
      (updateHeartbeatRow { status := HeartbeatStatus.DEGRADED } 9 row₁).hostname =
        row₁.hostname ∧
      (updateHeartbeatRow { status := HeartbeatStatus.DEGRADED } 9 row₁).message =
        row₁.message ∧
      (updateHeartbeatRow { status := HeartbeatStatus.DEGRADED } 9 row₁).watched_paths =
        row₁.watched_paths ∧
      (updateHeartbeatRow { status := HeartbeatStatus.DEGRADED } 9 row₁).version =
        row₁.version :=
  c5_record_heartbeat_twice_upsert c5World 4 "opdb" "ing-1"
    { hostname := some "host-a" } { status := HeartbeatStatus.DEGRADED } 5 9
    rfl (by decide)

/-- Inserting an entry for a fresh DSN at the end of the cache: a lookup
for that DSN now finds it, and lookups for other DSNs are unchanged. -/
theorem lookup_cache_append (cache : List (String × CachedConn)) (key : String)
    (conn : CachedConn) (d : String)
    (hnone : cache.find? (fun p => p.1 == key) = none) :
    ((cache ++ [(key, conn)]).find? (fun p => p.1 == d)).map Prod.snd =
      (if key = d then some conn
       else (cache.find? (fun p => p.1 == d)).map Prod.snd) := by
  rw [List.find?_append]
  by_cases hd : key = d
  · subst hd
    rw [hnone]
    simp
  · have hbeq : (key == d) = false := by simp [hd]
    simp [List.find?_cons, hbeq, hd]

/-- Invariant of interleaved executions started from a cold cache: the
number of constructions per DSN is one exactly when the DSN is cached
and zero otherwise, and every finished thread's DSN is cached. -/
def concInv (s : ConcState) : Prop :=
  (∀ d : String, s.builds.count d = if (s.lookup d).isSome then 1 else 0) ∧
  (∀ t ∈ s.threads, t.phase = Phase.done → (s.lookup t.dsn).isSome = true)

/-- Every atomic transition preserves the construction invariant. -/
theorem concInv_step (s₁ s₂ : ConcState) (h : ConcStep s₁ s₂)
    (hinv : concInv s₁) : concInv s₂ := by
  obtain ⟨i, hstep⟩ := h
  obtain ⟨hcount, hdone⟩ := hinv
  cases hstep with
  | acquire t hget hidle hlock =>
    refine ⟨hcount, ?_⟩
    intro t₁ ht₁ hph
    rcases List.mem_or_eq_of_mem_set ht₁ with hmem | heq
    · exact hdone t₁ hmem hph
    · subst heq
      simp at hph
  | runHit t conn hget hphase hlock hfound =>
    refine ⟨hcount, ?_⟩
    intro t₁ ht₁ hph
    rcases List.mem_or_eq_of_mem_set ht₁ with hmem | heq
    · exact hdone t₁ hmem hph
    · subst heq
      show (s₁.lookup t.dsn).isSome = true
      rw [hfound]
      rfl
  | runMiss t hget hphase hlock hmiss =>
    have hfind : s₁.cache.find? (fun p => p.1 == t.dsn) = none := by
      unfold ConcState.lookup at hmiss
      cases hcase : s₁.cache.find? (fun p => p.1 == t.dsn) with
      | none => rfl
      | some c => rw [hcase] at hmiss; simp at hmiss
    have hl := lookup_cache_append s₁.cache t.dsn
      { engine := { engineId := s₁.nextId, dsn := t.dsn, pool := classifyDsn t.dsn },
        sessionFactoryId := s₁.nextId } (d := t.dsn) hfind
    constructor
    · intro d
      have hld := lookup_cache_append s₁.cache t.dsn
        { engine := { engineId := s₁.nextId, dsn := t.dsn, pool := classifyDsn t.dsn },
          sessionFactoryId := s₁.nextId } (d := d) hfind
      simp only [ConcState.lookup, List.count_append]
      simp only [hld]
      by_cases hd : t.dsn = d
      · subst hd
        have h0 := hcount t.dsn
        simp only [ConcState.lookup, hfind, Option.map_none', Option.isSome_none,
          Bool.false_eq_true, if_false] at h0
        simp [h0, List.count_singleton]
      · have hbeq : (t.dsn == d) = false := by simp [hd]
        have h1 := hcount d
        simp only [ConcState.lookup] at h1
        rw [if_neg hd]
        simp [hbeq, List.count_singleton, h1]
    · intro t₁ ht₁ hph
      rcases List.mem_or_eq_of_mem_set ht₁ with hmem | heq
      · have hs := hdone t₁ hmem hph
        simp only [ConcState.lookup] at hs ⊢
        rw [List.find?_append]
        cases hcase : s₁.cache.find? (fun p => p.1 == t₁.dsn) with
        | some c => simp [hcase]
        | none => rw [hcase] at hs; simp at hs
      · subst heq
        simp [ConcState.lookup, List.find?_append, hfind, List.find?_cons]

/-- The construction invariant holds in every reachable state. -/
theorem concInv_reach (s₁ s₂ : ConcState) (h : ConcReach s₁ s₂)
    (hinv : concInv s₁) : concInv s₂ := by
  induction h with
  | refl => exact hinv
  | tail _ hstep ih => exact concInv_step _ _ hstep ih

/-- Thread fixture for the C7 counterexample: an idle thread for DSN a. -/
def c7ThreadA : CThread := { dsn := "a", phase := Phase.idle, result := none }

/-- Thread fixture for the C7 counterexample: an idle thread for DSN b. -/
def c7ThreadB : CThread := { dsn := "b", phase := Phase.idle, result := none }

/-- Initial state of the C7 counterexample: two idle first-time callers
for two different DSNs, cold cache, lock free. -/
def c7Init : ConcState :=
  { lock := none, cache := [], nextId := 0, builds := [],
    threads := [c7ThreadA, c7ThreadB] }

/-- State after thread 0 acquired the module lock for DSN a. -/
def c7Blocked : ConcState :=
  { lock := some 0, cache := [], nextId := 0, builds := [],
    threads := [{ c7ThreadA with phase := Phase.holding }, c7ThreadB] }

/-- C7 counterexample: construction is not serialized by a per-DSN lock
but by the single module-wide cache lock, so first-time calls for
different DSNs do block each other.  Concretely, after thread 0 acquires
the lock for DSN a, thread 1 — a first-time caller for the different
DSN b — has no enabled transition at all. -/
theorem c7_counterexample :
    StepBy 0 c7Init c7Blocked ∧
    c7ThreadB.dsn ≠ c7ThreadA.dsn ∧
    ¬ (∃ s₂, StepBy 1 c7Blocked s₂) := by
  refine ⟨StepBy.acquire 0 c7Init c7ThreadA rfl rfl rfl, by decide, ?_⟩
  rintro ⟨s₂, h⟩
  cases h with
  | acquire t hget hidle hlock => simp [c7Blocked] at hlock
  | runHit t conn hget hphase hlock hfound => simp [c7Blocked] at hlock
  | runMiss t hget hphase hlock hmiss => simp [c7Blocked] at hlock

/-- C7 amended: in any interleaved execution started from a cold cache
with all threads idle, at most one engine is ever constructed per DSN
and once any thread has completed a call for a DSN exactly one engine
was constructed for it — N racing first-time callers for the same DSN
build exactly one engine.  The serialization however comes from the
single global cache lock, not per-DSN striped locks: first-time calls
for different DSNs block each other (see the counterexample). -/
theorem c7_amended_global_lock_single_construction (s₀ s : ConcState)
    (hcache : s₀.cache = []) (hbuilds : s₀.builds = [])
    (hidle : ∀ t ∈ s₀.threads, t.phase = Phase.idle)
    (hreach : ConcReach s₀ s) :
    (∀ d : String, s.builds.count d ≤ 1) ∧
    (∀ t ∈ s.threads, t.phase = Phase.done → s.builds.count t.dsn = 1) := by
  have hinv0 : concInv s₀ := by
    constructor
    · intro d
      simp [hbuilds, ConcState.lookup, hcache]
    · intro t ht hph
      rw [hidle t ht] at hph
      simp at hph
  have hinv := concInv_reach s₀ s hreach hinv0
  constructor
  · intro d
    rw [hinv.1 d]
    split <;> omega
  · intro t ht hph
    rw [hinv.1 t.dsn]
    simp [hinv.2 t ht hph]

/-- Holding-phase thread fixture for the C7 witness. -/
def c7HoldA : CThread := { dsn := "a", phase := Phase.holding, result := none }

/-- The engine the first thread of the C7 witness constructs. -/
def c7Eng : Engine := { engineId := 0, dsn := "a", pool := classifyDsn "a" }

/-- The cache entry the first thread of the C7 witness inserts. -/
def c7Conn : CachedConn := { engine := c7Eng, sessionFactoryId := 0 }

/-- Finished-thread fixture for the C7 witness. -/
def c7DoneA : CThread := { dsn := "a", phase := Phase.done, result := some c7Eng }

/-- C7 witness initial state: two idle first-time callers for the same
DSN a, cold cache. -/
def c7W0 : ConcState :=
  { lock := none, cache := [], nextId := 0, builds := [],
    threads := [c7ThreadA, c7ThreadA] }

/-- C7 witness after thread 0 acquires the lock. -/
def c7W1 : ConcState :=
  { lock := some 0, cache := [], nextId := 0, builds := [],
    threads := [c7HoldA, c7ThreadA] }

/-- C7 witness after thread 0 constructs and inserts the engine. -/
def c7W2 : ConcState :=
  { lock := none, cache := [("a", c7Conn)], nextId := 1, builds := ["a"],
    threads := [c7DoneA, c7ThreadA] }

/-- C7 witness after thread 1 acquires the lock in turn. -/
def c7W3 : ConcState :=
  { lock := some 1, cache := [("a", c7Conn)], nextId := 1, builds := ["a"],
    threads := [c7DoneA, c7HoldA] }

/-- C7 witness final state: both threads done, one construction. -/
def c7W4 : ConcState :=
  { lock := none, cache := [("a", c7Conn)], nextId := 1, builds := ["a"],
    threads := [c7DoneA, c7DoneA] }

/-- Witness for the amended C7: two concrete racing first-time callers
for the same DSN finish with exactly one engine construction. -/
theorem c7_amended_witness : c7W4.builds.count "a" = 1 := by
  have hreach : ConcReach c7W0 c7W4 :=
    Relation.ReflTransGen.head ⟨0, StepBy.acquire 0 c7W0 c7ThreadA rfl rfl rfl⟩
      (Relation.ReflTransGen.head ⟨0, StepBy.runMiss 0 c7W1 c7HoldA rfl rfl rfl rfl⟩
        (Relation.ReflTransGen.head ⟨1, StepBy.acquire 1 c7W2 c7ThreadA rfl rfl rfl⟩
          (Relation.ReflTransGen.single
            ⟨1, StepBy.runHit 1 c7W3 c7HoldA c7Conn rfl rfl rfl rfl⟩)))
  have h := c7_amended_global_lock_single_construction c7W0 c7W4 rfl rfl
    (by decide) hreach
  exact h.2 c7DoneA (by decide) rfl

end MetaFirst
